import Mathlib

/-!
Shallow embedding of the security core of the alx-polly polling application:
the CSRF token service (src/lib/csrf-protection.ts) and the poll mutation
handlers (src/app/lib/actions/poll-actions.ts).

External effects are made explicit:

* the cookie store is an `Option String` holding the value of the
  `csrf_token` cookie (`none` = cookie absent);
* the SHA-256 digest of the crypto library is an abstract parameter
  `hashToken : String → String`;
* the random secret produced by `generateCSRFToken` (`randomBytes(32)`)
  is an explicit argument of `setCSRFToken`;
* the database is a `DB` value holding the `polls` and `votes` tables;
  each handler returns the source's result object (modelled as
  `Option String`, `some msg` being `{ error: msg }` and `none` being
  `{ error: null }`) together with the resulting database;
* the authenticated identity resolved by `supabase.auth.getUser()` is an
  `Option User` argument (`none` = not logged in);
* the row id generated by the store for an inserted poll is the explicit
  argument `newId` of `createPoll`;
* in `deletePoll` the deletion of dependent vote rows is an external call
  that may fail; the injected outcome of that call is the argument
  `votesDelErr` (`some msg` = the store reported an error).

String literals reproduce the source error messages exactly; the escape
`\x27` stands for an apostrophe.
-/

namespace AlxPolly

/-- Error message of `createPoll`/`updatePoll`/`submitVote` on a missing or
invalid CSRF token. -/
def invalidTokenMsg : String :=
  "Invalid security token. Please refresh the page and try again."

def invalidQuestionMsg : String := "Please provide a valid question."

def questionTooLongMsg : String :=
  "Question is too long. Maximum 500 characters allowed."

def tooFewOptionsMsg : String := "Please provide at least two options."

def tooManyOptionsMsg : String := "Maximum 10 options allowed."

def emptyOptionMsg : String := "Empty options are not allowed."

def optionTooLongMsg : String :=
  "Option text is too long. Maximum 200 characters allowed."

def duplicateOptionsMsg : String := "Duplicate options are not allowed."

def mustLoginCreateMsg : String := "You must be logged in to create a poll."

def mustLoginVoteMsg : String := "You must be logged in to vote."

def mustLoginDeleteMsg : String := "You must be logged in to delete a poll."

def mustLoginUpdateMsg : String := "You must be logged in to update a poll."

def alreadyVotedMsg : String := "You have already voted on this poll."

def invalidOptionMsg : String := "Invalid option selected."

def pollNotFoundMsg : String := "Poll not found."

def noDeletePermissionMsg : String :=
  "You don\x27t have permission to delete this poll."

def noUpdatePermissionMsg : String :=
  "You don\x27t have permission to update this poll."

/-- Opaque message of the store when `.maybeSingle()` finds more than one
matching row (surfaced verbatim by the handlers). -/
def multipleRowsMsg : String := "JSON object requested, multiple rows returned"

/-- Source function `validateCSRFToken` (src/lib/csrf-protection.ts, lines 61-72): reads the
`csrf_token` cookie; returns false if the cookie is absent or falsy or the
candidate token is falsy; otherwise hashes the candidate and compares with
the stored hash. In JavaScript a string is falsy exactly when it is empty. -/
def validateCSRFToken (hashToken : String → String) (store : Option String)
    (token : String) : Bool :=
  match store with
  | none => false
  | some storedToken =>
    if storedToken = "" ∨ token = "" then false
    else hashToken token == storedToken

/-- Source function `setCSRFToken` (src/lib/csrf-protection.ts, lines 37-54): generates a
fresh secret (here the argument `token`), stores its hash as the new value
of the `csrf_token` cookie (overwriting any previous value) and returns the
raw secret. The result is `(returned secret, new cookie store)`. -/
def setCSRFToken (hashToken : String → String) (token : String) :
    String × Option String :=
  (token, some (hashToken token))

/-- Source function `getCSRFToken` (src/lib/csrf-protection.ts, lines 78-80): always issues a
fresh token via `setCSRFToken`. -/
def getCSRFToken (hashToken : String → String) (token : String) :
    String × Option String :=
  setCSRFToken hashToken token

/-- Authenticated identity returned by `supabase.auth.getUser()`: its id and
the `app_metadata.role` field (absent roles modelled as `none`). -/
structure User where
  id : String
  role : Option String
deriving DecidableEq

/-- Row of the `polls` table. -/
structure Poll where
  id : String
  user_id : String
  question : String
  options : List String
deriving DecidableEq

/-- Row of the `votes` table (`option_index` is a JavaScript number that the
caller may pass negative, hence `Int`). -/
structure Vote where
  poll_id : String
  user_id : String
  option_index : Int
deriving DecidableEq

/-- The two tables of the external store touched by the handlers. -/
structure DB where
  polls : List Poll
  votes : List Vote
deriving DecidableEq

/-- The fields read from the submitted `FormData` by `createPoll` and
`updatePoll`: `formData.get(CSRF.FIELD_NAME)`, `formData.get("question")`
(`none` = the field is absent, i.e. `get` returned null) and
`formData.getAll("options")`. -/
structure PollFormData where
  csrfToken : Option String
  question : Option String
  options : List String
deriving DecidableEq

/-- JavaScript `String.prototype.trim`: strips leading and trailing
whitespace. Defined structurally over the character list (the core library
trim is byte-position based and not usable for kernel evaluation). -/
def jsTrim (s : String) : String :=
  String.mk (((s.data.dropWhile Char.isWhitespace).reverse.dropWhile
    Char.isWhitespace).reverse)

/-- The per-option loop of `createPoll`/`updatePoll` (poll-actions.ts lines
37-46 and 250-259): scans the options in order and for each option first
rejects a blank-after-trim option, then an option longer than 200
characters. Returns the first error found. -/
def optionsLoopCheck : List String → Option String
  | [] => none
  | o :: rest =>
    if jsTrim o = "" then some emptyOptionMsg
    else if o.length > 200 then some optionTooLongMsg
    else optionsLoopCheck rest

/-- The input-validation block shared verbatim by `createPoll` (lines 20-52)
and `updatePoll` (lines 233-265): question missing or blank, question longer
than 500, fewer than 2 options, more than 10 options, the per-option loop,
then duplicate options after trimming (the `Set` size comparison is modelled
by `List.dedup`). Returns the first error, or `none` when validation
passes. `question = none` models `formData.get("question")` returning null,
which fails the `!question` check. -/
def validatePollInput (question : Option String) (options : List String) :
    Option String :=
  match question with
  | none => some invalidQuestionMsg
  | some q =>
    if jsTrim q = "" then some invalidQuestionMsg
    else if q.length > 500 then some questionTooLongMsg
    else if options.length < 2 then some tooFewOptionsMsg
    else if options.length > 10 then some tooManyOptionsMsg
    else
      match optionsLoopCheck options with
      | some e => some e
      | none =>
        if (options.map jsTrim).dedup.length ≠ options.length then
          some duplicateOptionsMsg
        else none

/-- The token check shared by `createPoll` (lines 10-13) and `updatePoll`
(lines 223-226): `!csrfToken || !validateCSRFToken(csrfToken)`. `none`
models `formData.get` returning null. -/
def tokenCheckFails (hashToken : String → String) (store : Option String) :
    Option String → Bool
  | none => true
  | some t => t = "" || !(validateCSRFToken hashToken store t)

/-- Source function `createPoll` (poll-actions.ts, lines 8-84): CSRF check, read question and
options (dropping falsy — i.e. empty-string — options via
`.filter(Boolean)`), input validation, identity check, then insert of the
trimmed question and options as a new poll row. -/
def createPoll (hashToken : String → String) (store : Option String)
    (fd : PollFormData) (authUser : Option User) (newId : String) (db : DB) :
    Option String × DB :=
  if tokenCheckFails hashToken store fd.csrfToken then (some invalidTokenMsg, db)
  else
    let options := fd.options.filter (fun o => o != "")
    match validatePollInput fd.question options with
    | some e => (some e, db)
    | none =>
      match authUser with
      | none => (some mustLoginCreateMsg, db)
      | some user =>
        let sanitizedQuestion := jsTrim (fd.question.getD "")
        let sanitizedOptions := options.map jsTrim
        (none, { db with polls := db.polls ++
          [⟨newId, user.id, sanitizedQuestion, sanitizedOptions⟩] })

/-- Source function `submitVote` (poll-actions.ts, lines 118-168): CSRF check only when a
truthy token argument was supplied, identity check, `.maybeSingle()` lookup
for an existing vote of this user on this poll (an error when several rows
match, the already-voted rejection when exactly one does), `.single()`
lookup of the poll (an error when absent), bounds check of `optionIndex`,
then insert of the vote row. -/
def submitVote (hashToken : String → String) (store : Option String)
    (pollId : String) (optionIndex : Int) (csrfToken : Option String)
    (authUser : Option User) (db : DB) : Option String × DB :=
  if (csrfToken.getD "") ≠ "" ∧
      ¬ validateCSRFToken hashToken store (csrfToken.getD "") then
    (some invalidTokenMsg, db)
  else
    match authUser with
    | none => (some mustLoginVoteMsg, db)
    | some user =>
      let existing := db.votes.filter
        (fun v => v.poll_id == pollId && v.user_id == user.id)
      if existing.length > 1 then (some multipleRowsMsg, db)
      else if existing.length = 1 then (some alreadyVotedMsg, db)
      else
        match db.polls.find? (fun p => p.id == pollId) with
        | none => (some pollNotFoundMsg, db)
        | some poll =>
          if optionIndex < 0 ∨ (poll.options.length : Int) ≤ optionIndex then
            (some invalidOptionMsg, db)
          else
            (none, { db with votes := db.votes ++
              [⟨pollId, user.id, optionIndex⟩] })

set_option linter.unusedVariables false in
/-- Source function `deletePoll` (poll-actions.ts, lines 171-218): no CSRF check at all (the
cookie store is part of the request context but never read), identity check,
admin bypass of the ownership check, ownership check via a `.single()`
lookup of the poll for non-admins, then deletion of the poll's vote rows
followed — only if that call succeeded — by deletion of the poll row. -/
def deletePoll (store : Option String) (id : String) (authUser : Option User)
    (votesDelErr : Option String) (db : DB) : Option String × DB :=
  match authUser with
  | none => (some mustLoginDeleteMsg, db)
  | some user =>
    let isAdmin := user.role = some "admin"
    let ownershipFail : Option String :=
      if isAdmin then none
      else
        match db.polls.find? (fun p => p.id == id) with
        | none => some pollNotFoundMsg
        | some poll =>
          if poll.user_id ≠ user.id then some noDeletePermissionMsg else none
    match ownershipFail with
    | some e => (some e, db)
    | none =>
      match votesDelErr with
      | some e => (some e, db)
      | none =>
        let remainingVotes := db.votes.filter (fun v => !(v.poll_id == id))
        let db1 := { db with votes := remainingVotes }
        let remainingPolls := db1.polls.filter (fun p => !(p.id == id))
        (none, { db1 with polls := remainingPolls })

/-- Source function `updatePoll` (poll-actions.ts, lines 221-316): CSRF check, the same input
validation as `createPoll`, identity check, `.single()` lookup of the poll,
permission check (admin or owner), then update of every poll row whose id
matches with the trimmed question and options. -/
def updatePoll (hashToken : String → String) (store : Option String)
    (pollId : String) (fd : PollFormData) (authUser : Option User) (db : DB) :
    Option String × DB :=
  if tokenCheckFails hashToken store fd.csrfToken then (some invalidTokenMsg, db)
  else
    let options := fd.options.filter (fun o => o != "")
    match validatePollInput fd.question options with
    | some e => (some e, db)
    | none =>
      match authUser with
      | none => (some mustLoginUpdateMsg, db)
      | some user =>
        let isAdmin := user.role = some "admin"
        match db.polls.find? (fun p => p.id == pollId) with
        | none => (some pollNotFoundMsg, db)
        | some poll =>
          if ¬ isAdmin ∧ poll.user_id ≠ user.id then
            (some noUpdatePermissionMsg, db)
          else
            let sanitizedQuestion := jsTrim (fd.question.getD "")
            let sanitizedOptions := options.map jsTrim
            let newPolls := db.polls.map (fun p =>
              if p.id == pollId then
                { p with question := sanitizedQuestion,
                         options := sanitizedOptions }
              else p)
            (none, { db with polls := newPolls })

/-! Concrete fixtures used by the witness theorems. `demoHash` stands in for
the SHA-256 hex digest: like the real digest it never returns the empty
string. -/

def demoHash (s : String) : String := "h" ++ s

def alice : User := ⟨"alice", none⟩

def bob : User := ⟨"bob", none⟩

def adminUser : User := ⟨"root", some "admin"⟩

def demoPoll : Poll := ⟨"p1", "alice", "Q?", ["a", "b"]⟩

def demoDB : DB := ⟨[demoPoll], [⟨"p1", "bob", 0⟩]⟩

def goodFD : PollFormData := ⟨some "tok", some " Q? ", [" a ", "b"]⟩

def demoStore : Option String := some (demoHash "tok")

/-- An option of 201 characters (raw length over the 200 limit). -/
def longOption : String := String.mk (List.replicate 201 'a')

/-- An option whose raw length is 201 but whose trimmed length is 200. -/
def paddedOption : String := String.mk (' ' :: List.replicate 200 'a')

/-- A question of 501 characters. -/
def longQuestion : String := String.mk (List.replicate 501 'q')

/-- A question whose raw length is 501 but whose trimmed length is 500. -/
def paddedQuestion : String := String.mk (' ' :: List.replicate 500 'q')

def fdOneOption : PollFormData := ⟨some "tok", some "Q", ["a"]⟩

def fdElevenOptions : PollFormData :=
  ⟨some "tok", some "Q", ["a", "b", "c", "d", "e", "f", "g", "h", "i", "j", "k"]⟩

def fdLongQuestion : PollFormData := ⟨some "tok", some longQuestion, ["a", "b"]⟩

def fdDupOptions : PollFormData := ⟨some "tok", some "Q", ["a", "a "]⟩

def fdPaddedOption : PollFormData := ⟨some "tok", some "Q", [paddedOption, "b"]⟩

def fdPaddedQuestion : PollFormData :=
  ⟨some "tok", some paddedQuestion, ["a", "b"]⟩

/-- C7 counterexample submission: the first option is over-long (and not
blank), the second option is blank after trimming. -/
def fdLongThenBlank : PollFormData := ⟨some "tok", some "Q", [longOption, " "]⟩

/-- A submission interleaving empty-string options with two valid ones. -/
def fdWithEmpties : PollFormData :=
  ⟨some "tok", some "Q", ["", "a", "", "b", ""]⟩

/-- Modelled from the spec (C7): the validation order as the spec states it,
with the empty-option rule checked on all options before the
option-too-long rule is checked on any option. Written for comparison with
`validatePollInput`, which is the order the code implements. -/
def validatePollInputClaimOrder (question : Option String)
    (options : List String) : Option String :=
  match question with
  | none => some invalidQuestionMsg
  | some q =>
    if jsTrim q = "" then some invalidQuestionMsg
    else if q.length > 500 then some questionTooLongMsg
    else if options.length < 2 then some tooFewOptionsMsg
    else if options.length > 10 then some tooManyOptionsMsg
    else if options.any (fun o => jsTrim o == "") then some emptyOptionMsg
    else if options.any (fun o => decide (o.length > 200)) then
      some optionTooLongMsg
    else if (options.map jsTrim).dedup.length ≠ options.length then
      some duplicateOptionsMsg
    else none

theorem demoHash_ne_empty (s : String) : demoHash s ≠ "" := by
  intro h
  have hl := congrArg String.length h
  simp [demoHash, String.length_append] at hl
  exact absurd hl.1 (by decide)

/-- C2: a secret validates against the cookie store produced by its own
issuance, and no longer validates once a second issuance has overwritten the
cookie with the hash of a different secret (different in the sense that the
digests differ, which collision resistance of SHA-256 guarantees for
distinct secrets). -/
theorem c2_only_latest_secret_validates (hashToken : String → String)
    (s1 s2 : String) (h1 : s1 ≠ "") (hh1 : hashToken s1 ≠ "")
    (hne : hashToken s1 ≠ hashToken s2) :
    validateCSRFToken hashToken (setCSRFToken hashToken s1).2 s1 = true
    ∧ validateCSRFToken hashToken (setCSRFToken hashToken s2).2 s1 = false := by
  constructor
  · simp [validateCSRFToken, setCSRFToken, h1, hh1]
  · by_cases h2 : hashToken s2 = ""
    · simp [validateCSRFToken, setCSRFToken, h2]
    · simp [validateCSRFToken, setCSRFToken, h1, h2, hne]

theorem c2_only_latest_secret_validates_witness :
    validateCSRFToken demoHash (setCSRFToken demoHash "a").2 "a" = true
    ∧ validateCSRFToken demoHash (setCSRFToken demoHash "b").2 "a" = false :=
  c2_only_latest_secret_validates demoHash "a" "b" (by decide) (by decide)
    (by decide)

/-- C3: `validateCSRFToken` returns true exactly when the cookie store holds
a stored hash that equals the digest of a non-empty candidate token (the
hypothesis that the digest is never the empty string holds for the real
SHA-256 hex digest, which always has 64 characters); moreover the empty
token never validates and nothing validates against an absent cookie. -/
theorem c3_validate_characterisation (hashToken : String → String)
    (hhash : ∀ s, hashToken s ≠ "") (store : Option String) (token : String) :
    (validateCSRFToken hashToken store token = true ↔
      ∃ h, store = some h ∧ token ≠ "" ∧ hashToken token = h)
    ∧ validateCSRFToken hashToken store "" = false
    ∧ validateCSRFToken hashToken none token = false := by
  refine ⟨⟨?_, ?_⟩, ?_, ?_⟩
  · intro hv
    match store with
    | none => simp [validateCSRFToken] at hv
    | some st =>
      by_cases hc : st = "" ∨ token = ""
      · simp [validateCSRFToken, hc] at hv
      · push_neg at hc
        simp [validateCSRFToken, hc.1, hc.2] at hv
        exact ⟨st, rfl, hc.2, hv⟩
  · rintro ⟨h, rfl, htok, heq⟩
    have hne : h ≠ "" := heq ▸ hhash token
    simp [validateCSRFToken, htok, hne, heq]
  · match store with
    | none => simp [validateCSRFToken]
    | some st => simp [validateCSRFToken]
  · simp [validateCSRFToken]

theorem c3_validate_characterisation_witness :
    validateCSRFToken demoHash (some (demoHash "t")) "t" = true
    ∧ validateCSRFToken demoHash (some (demoHash "t")) "" = false
    ∧ validateCSRFToken demoHash none "t" = false := by
  have hc := c3_validate_characterisation demoHash demoHash_ne_empty
    (some (demoHash "t")) "t"
  exact ⟨hc.1.2 ⟨demoHash "t", rfl, by decide, rfl⟩, hc.2.1, hc.2.2⟩

/-- C1: for a delete or update request on an existing poll (found in the
store; for the update the usual preconditions of a well-formed request —
valid CSRF token and passing input validation — are assumed, since those
checks run before the authorization check; for the delete the external
vote-row deletion is assumed to succeed): a non-owner, non-admin identity is
rejected with the permission error and no mutation happens; the owner
succeeds; an admin succeeds even on a poll it does not own. -/
theorem c1_owner_admin_authorization (hashToken : String → String)
    (store : Option String) (u : User) (p : Poll) (db : DB) (pid : String)
    (fd : PollFormData) (t : String)
    (hfind : db.polls.find? (fun q => q.id == pid) = some p)
    (htok : fd.csrfToken = some t) (ht : t ≠ "")
    (hval : validateCSRFToken hashToken store t = true)
    (hinput : validatePollInput fd.question
      (fd.options.filter (fun o => o != "")) = none) :
    (u.role ≠ some "admin" → p.user_id ≠ u.id →
      deletePoll store pid (some u) none db = (some noDeletePermissionMsg, db)
      ∧ updatePoll hashToken store pid fd (some u) db
          = (some noUpdatePermissionMsg, db))
    ∧ (p.user_id = u.id →
      (deletePoll store pid (some u) none db).1 = none
      ∧ (updatePoll hashToken store pid fd (some u) db).1 = none)
    ∧ (u.role = some "admin" →
      (deletePoll store pid (some u) none db).1 = none
      ∧ (updatePoll hashToken store pid fd (some u) db).1 = none) := by
  refine ⟨fun hadmin hown => ⟨?_, ?_⟩, fun hown => ⟨?_, ?_⟩,
    fun hadmin => ⟨?_, ?_⟩⟩
  · simp [deletePoll, hfind, hadmin, hown]
  · simp [updatePoll, tokenCheckFails, htok, ht, hval, hinput, hfind,
      hadmin, hown]
  · simp [deletePoll, hfind, hown]
  · simp [updatePoll, tokenCheckFails, htok, ht, hval, hinput, hfind, hown]
  · simp [deletePoll, hfind, hadmin]
  · simp [updatePoll, tokenCheckFails, htok, ht, hval, hinput, hfind, hadmin]

theorem c1_owner_admin_authorization_witness :
    (deletePoll demoStore "p1" (some bob) none demoDB
        = (some noDeletePermissionMsg, demoDB)
      ∧ updatePoll demoHash demoStore "p1" goodFD (some bob) demoDB
        = (some noUpdatePermissionMsg, demoDB))
    ∧ ((deletePoll demoStore "p1" (some alice) none demoDB).1 = none
      ∧ (updatePoll demoHash demoStore "p1" goodFD (some alice) demoDB).1
        = none)
    ∧ ((deletePoll demoStore "p1" (some adminUser) none demoDB).1 = none
      ∧ (updatePoll demoHash demoStore "p1" goodFD (some adminUser) demoDB).1
        = none) := by
  have hb := c1_owner_admin_authorization demoHash demoStore bob demoPoll
    demoDB "p1" goodFD "tok" (by decide) rfl (by decide) (by decide)
    (by decide)
  have ha := c1_owner_admin_authorization demoHash demoStore alice demoPoll
    demoDB "p1" goodFD "tok" (by decide) rfl (by decide) (by decide)
    (by decide)
  have hr := c1_owner_admin_authorization demoHash demoStore adminUser
    demoPoll demoDB "p1" goodFD "tok" (by decide) rfl (by decide) (by decide)
    (by decide)
  exact ⟨hb.1 (by decide) (by decide), ha.2.1 (by decide),
    hr.2.2 (by decide)⟩

/-- C4: for a vote submission by an authenticated identity whose token check
passes (no token supplied, or a valid one): when the store already holds a
vote row of this identity on this poll the submission is rejected with the
already-voted error and nothing is inserted; when no such row exists and
the poll is found, an `option_index` at or beyond the option count is
rejected, a negative `option_index` is rejected, and an in-bounds one
inserts the vote row. -/
theorem c4_vote_submission (hashToken : String → String)
    (store : Option String) (pid : String) (idx : Int) (ctok : Option String)
    (u : User) (db : DB) (v : Vote) (p : Poll)
    (htokpass : ctok.getD "" = ""
      ∨ validateCSRFToken hashToken store (ctok.getD "") = true) :
    (db.votes.filter (fun w => w.poll_id == pid && w.user_id == u.id) = [v] →
      submitVote hashToken store pid idx ctok (some u) db
        = (some alreadyVotedMsg, db))
    ∧ (db.votes.filter (fun w => w.poll_id == pid && w.user_id == u.id) = [] →
      db.polls.find? (fun q => q.id == pid) = some p →
      (((p.options.length : Int) ≤ idx →
        submitVote hashToken store pid idx ctok (some u) db
          = (some invalidOptionMsg, db))
      ∧ (idx < 0 →
        submitVote hashToken store pid idx ctok (some u) db
          = (some invalidOptionMsg, db))
      ∧ (0 ≤ idx → idx < (p.options.length : Int) →
        submitVote hashToken store pid idx ctok (some u) db
          = (none, { db with votes := db.votes ++ [⟨pid, u.id, idx⟩] })))) := by
  have hcond : ¬(ctok.getD "" ≠ ""
      ∧ ¬ validateCSRFToken hashToken store (ctok.getD "") = true) := by
    rcases htokpass with h | h
    · simp [h]
    · simp [h]
  refine ⟨fun hone => ?_, fun hnone hfind => ⟨fun hge => ?_, fun hneg => ?_,
    fun h0 hlt => ?_⟩⟩
  · simp only [submitVote]
    rw [if_neg hcond]
    simp [hone]
  · simp only [submitVote]
    rw [if_neg hcond]
    simp [hnone, hfind, hge]
  · simp only [submitVote]
    rw [if_neg hcond]
    simp [hnone, hfind, hneg]
  · have hn1 : ¬ idx < 0 := by omega
    have hn2 : ¬ (p.options.length : Int) ≤ idx := by omega
    simp only [submitVote]
    rw [if_neg hcond]
    simp [hnone, hfind, hn1, hn2]

theorem c4_vote_submission_witness :
    submitVote demoHash none "p1" 0 none (some bob) demoDB
      = (some alreadyVotedMsg, demoDB)
    ∧ submitVote demoHash none "p1" 2 none (some alice) demoDB
      = (some invalidOptionMsg, demoDB)
    ∧ submitVote demoHash none "p1" (-1) none (some alice) demoDB
      = (some invalidOptionMsg, demoDB)
    ∧ submitVote demoHash none "p1" 1 none (some alice) demoDB
      = (none, { demoDB with votes := demoDB.votes ++ [⟨"p1", "alice", 1⟩] }) := by
  have hb := c4_vote_submission demoHash none "p1" 0 none bob demoDB
    ⟨"p1", "bob", 0⟩ demoPoll (Or.inl rfl)
  have h2 := c4_vote_submission demoHash none "p1" 2 none alice demoDB
    ⟨"p1", "bob", 0⟩ demoPoll (Or.inl rfl)
  have hneg := c4_vote_submission demoHash none "p1" (-1) none alice demoDB
    ⟨"p1", "bob", 0⟩ demoPoll (Or.inl rfl)
  have hok := c4_vote_submission demoHash none "p1" 1 none alice demoDB
    ⟨"p1", "bob", 0⟩ demoPoll (Or.inl rfl)
  exact ⟨hb.1 (by decide),
    (h2.2 (by decide) (by decide)).1 (by decide),
    (hneg.2 (by decide) (by decide)).2.1 (by decide),
    (hok.2 (by decide) (by decide)).2.2 (by decide) (by decide)⟩

theorem optionsLoopCheck_none_iff (l : List String) :
    optionsLoopCheck l = none ↔ ∀ o ∈ l, jsTrim o ≠ "" ∧ o.length ≤ 200 := by
  induction l with
  | nil => simp [optionsLoopCheck]
  | cons o rest ih =>
    by_cases h1 : jsTrim o = ""
    · simp [optionsLoopCheck, h1]
    · by_cases h2 : o.length > 200
      · simp [optionsLoopCheck, h1, h2]
      · rw [optionsLoopCheck, if_neg h1, if_neg h2, ih, List.forall_mem_cons]
        have hle : o.length ≤ 200 := by omega
        simp [h1, hle]

theorem dedup_length_eq_iff (l : List String) :
    l.dedup.length = l.length ↔ l.Nodup := by
  constructor
  · intro h
    have := List.Sublist.eq_of_length (List.dedup_sublist l) h
    exact this ▸ List.nodup_dedup l
  · intro h
    rw [List.dedup_eq_self.2 h]

theorem validatePollInput_eq_none (q : String) (options : List String)
    (h1 : jsTrim q ≠ "") (h2 : q.length ≤ 500) (h3 : 2 ≤ options.length)
    (h4 : options.length ≤ 10)
    (h5 : ∀ o ∈ options, jsTrim o ≠ "" ∧ o.length ≤ 200)
    (h6 : (options.map jsTrim).Nodup) :
    validatePollInput (some q) options = none := by
  have hloop := (optionsLoopCheck_none_iff options).2 h5
  have hd : (options.map jsTrim).dedup.length = options.length := by
    rw [List.dedup_eq_self.2 h6, List.length_map]
  simp [validatePollInput, h1, Nat.not_lt.2 h2, Nat.not_lt.2 h3,
    Nat.not_lt.2 h4, hloop, hd]

theorem validatePollInput_none_facts (question : Option String)
    (options : List String) (h : validatePollInput question options = none) :
    ∃ q, question = some q ∧ jsTrim q ≠ "" ∧ q.length ≤ 500
      ∧ 2 ≤ options.length ∧ options.length ≤ 10
      ∧ (∀ o ∈ options, jsTrim o ≠ "" ∧ o.length ≤ 200)
      ∧ (options.map jsTrim).Nodup := by
  match question with
  | none => simp [validatePollInput] at h
  | some q =>
    refine ⟨q, rfl, ?_⟩
    simp only [validatePollInput] at h
    by_cases h1 : jsTrim q = ""
    · simp [h1] at h
    by_cases h2 : q.length > 500
    · simp [h1, h2] at h
    by_cases h3 : options.length < 2
    · simp [h1, h2, h3] at h
    by_cases h4 : options.length > 10
    · simp [h1, h2, h3, h4] at h
    match hloop : optionsLoopCheck options with
    | some e => simp [h1, h2, h3, h4, hloop] at h
    | none =>
      by_cases h5 : (options.map jsTrim).dedup.length ≠ options.length
      · simp [h1, h2, h3, h4, hloop, h5] at h
      · push_neg at h5
        have hnd : (options.map jsTrim).Nodup := by
          rw [← dedup_length_eq_iff, List.length_map]
          exact h5
        exact ⟨h1, by omega, by omega, by omega,
          (optionsLoopCheck_none_iff options).1 hloop, hnd⟩

/-- C5: for a create-poll submission with a valid token and an authenticated
identity (`opts` names the submitted options after the `.filter(Boolean)`
step): one option fails, eleven options fail, a 501-character question
fails, two options equal after trimming fail — each failure returning an
error value and inserting nothing — while 2 to 10 valid mutually
distinct-after-trim options (with a valid question) succeed and insert the
poll. -/
theorem c5_create_poll_validation (hashToken : String → String)
    (store : Option String) (fd : PollFormData) (u : User) (newId : String)
    (db : DB) (t : String) (opts : List String)
    (htok : fd.csrfToken = some t) (ht : t ≠ "")
    (hval : validateCSRFToken hashToken store t = true)
    (hopts : fd.options.filter (fun o => o != "") = opts) :
    (opts.length = 1 →
      (createPoll hashToken store fd (some u) newId db).1 ≠ none
      ∧ (createPoll hashToken store fd (some u) newId db).2 = db)
    ∧ (opts.length = 11 →
      (createPoll hashToken store fd (some u) newId db).1 ≠ none
      ∧ (createPoll hashToken store fd (some u) newId db).2 = db)
    ∧ (∀ q, fd.question = some q → q.length = 501 →
      (createPoll hashToken store fd (some u) newId db).1 ≠ none
      ∧ (createPoll hashToken store fd (some u) newId db).2 = db)
    ∧ (¬ (opts.map jsTrim).Nodup →
      (createPoll hashToken store fd (some u) newId db).1 ≠ none
      ∧ (createPoll hashToken store fd (some u) newId db).2 = db)
    ∧ (∀ q, fd.question = some q → jsTrim q ≠ "" → q.length ≤ 500 →
      2 ≤ opts.length → opts.length ≤ 10 →
      (∀ o ∈ opts, jsTrim o ≠ "" ∧ o.length ≤ 200) →
      (opts.map jsTrim).Nodup →
      createPoll hashToken store fd (some u) newId db
        = (none, { db with polls := db.polls ++
            [⟨newId, u.id, jsTrim q, opts.map jsTrim⟩] })) := by
  refine ⟨fun hlen => ?_, fun hlen => ?_, fun q hq hlen => ?_,
    fun hdup => ?_, fun q hq hq1 hq2 hlo hhi hok hnd => ?_⟩
  · match hv : validatePollInput fd.question opts with
    | some e => simp [createPoll, tokenCheckFails, htok, ht, hval, hopts, hv]
    | none =>
      obtain ⟨q, -, -, -, h3, -, -, -⟩ := validatePollInput_none_facts _ _ hv
      omega
  · match hv : validatePollInput fd.question opts with
    | some e => simp [createPoll, tokenCheckFails, htok, ht, hval, hopts, hv]
    | none =>
      obtain ⟨q, -, -, -, -, h4, -, -⟩ := validatePollInput_none_facts _ _ hv
      omega
  · match hv : validatePollInput fd.question opts with
    | some e => simp [createPoll, tokenCheckFails, htok, ht, hval, hopts, hv]
    | none =>
      obtain ⟨q2, hq2, -, hle, -, -, -, -⟩ := validatePollInput_none_facts _ _ hv
      rw [hq] at hq2
      injection hq2 with hq2
      subst hq2
      omega
  · match hv : validatePollInput fd.question opts with
    | some e => simp [createPoll, tokenCheckFails, htok, ht, hval, hopts, hv]
    | none =>
      obtain ⟨q, -, -, -, -, -, -, hnd⟩ := validatePollInput_none_facts _ _ hv
      exact absurd hnd hdup
  · have hv := validatePollInput_eq_none q opts hq1 hq2 hlo hhi hok hnd
    simp [createPoll, tokenCheckFails, htok, ht, hval, hopts, hq, hv]

set_option maxRecDepth 4000 in
theorem c5_create_poll_validation_witness :
    ((createPoll demoHash demoStore fdOneOption (some alice) "p2" demoDB).1
        ≠ none
      ∧ (createPoll demoHash demoStore fdOneOption (some alice) "p2"
          demoDB).2 = demoDB)
    ∧ ((createPoll demoHash demoStore fdElevenOptions (some alice) "p2"
          demoDB).1 ≠ none
      ∧ (createPoll demoHash demoStore fdElevenOptions (some alice) "p2"
          demoDB).2 = demoDB)
    ∧ ((createPoll demoHash demoStore fdLongQuestion (some alice) "p2"
          demoDB).1 ≠ none
      ∧ (createPoll demoHash demoStore fdLongQuestion (some alice) "p2"
          demoDB).2 = demoDB)
    ∧ ((createPoll demoHash demoStore fdDupOptions (some alice) "p2"
          demoDB).1 ≠ none
      ∧ (createPoll demoHash demoStore fdDupOptions (some alice) "p2"
          demoDB).2 = demoDB)
    ∧ createPoll demoHash demoStore goodFD (some alice) "p2" demoDB
      = (none, { demoDB with polls := demoDB.polls ++
          [⟨"p2", "alice", "Q?", ["a", "b"]⟩] }) := by
  have h1 := c5_create_poll_validation demoHash demoStore fdOneOption alice
    "p2" demoDB "tok" ["a"] rfl (by decide) (by decide) (by decide)
  have h11 := c5_create_poll_validation demoHash demoStore fdElevenOptions
    alice "p2" demoDB "tok"
    ["a", "b", "c", "d", "e", "f", "g", "h", "i", "j", "k"] rfl (by decide)
    (by decide) (by decide)
  have hlq := c5_create_poll_validation demoHash demoStore fdLongQuestion
    alice "p2" demoDB "tok" ["a", "b"] rfl (by decide) (by decide) (by decide)
  have hdup := c5_create_poll_validation demoHash demoStore fdDupOptions
    alice "p2" demoDB "tok" ["a", "a "] rfl (by decide) (by decide)
    (by decide)
  have hgood := c5_create_poll_validation demoHash demoStore goodFD alice
    "p2" demoDB "tok" [" a ", "b"] rfl (by decide) (by decide) (by decide)
  refine ⟨h1.1 (by decide), h11.2.1 (by decide),
    hlq.2.2.1 longQuestion rfl (by decide), hdup.2.2.2.1 (by decide), ?_⟩
  have hg := hgood.2.2.2.2 " Q? " rfl (by decide) (by decide) (by decide)
    (by decide) (by decide) (by decide)
  exact hg.trans (by decide)

/-- C6: token enforcement differs by operation. `createPoll` and
`updatePoll` fail closed with the invalid-security-token error when the
token field is missing or `validateCSRFToken` rejects it; `submitVote` with
no token supplied proceeds identically whatever the cookie store holds,
while a supplied non-empty token is enforced (rejected when invalid, and
when valid the call behaves exactly like a token-less call); `deletePoll`
performs no token check at all: its result does not depend on the cookie
store, and it never returns the invalid-token error (when the injected
external vote-deletion outcome is not an error). -/
theorem c6_token_enforcement_profile (hashToken : String → String)
    (store store2 : Option String) (fd : PollFormData)
    (authUser : Option User) (newId pid : String) (db : DB) (idx : Int)
    (verr : Option String) :
    (fd.csrfToken = none →
      createPoll hashToken store fd authUser newId db
        = (some invalidTokenMsg, db)
      ∧ updatePoll hashToken store pid fd authUser db
        = (some invalidTokenMsg, db))
    ∧ (∀ t, fd.csrfToken = some t →
        validateCSRFToken hashToken store t = false →
      createPoll hashToken store fd authUser newId db
        = (some invalidTokenMsg, db)
      ∧ updatePoll hashToken store pid fd authUser db
        = (some invalidTokenMsg, db))
    ∧ submitVote hashToken store pid idx none authUser db
        = submitVote hashToken store2 pid idx none authUser db
    ∧ (∀ t, t ≠ "" → validateCSRFToken hashToken store t = false →
        submitVote hashToken store pid idx (some t) authUser db
          = (some invalidTokenMsg, db))
    ∧ (∀ t, t ≠ "" → validateCSRFToken hashToken store t = true →
        submitVote hashToken store pid idx (some t) authUser db
          = submitVote hashToken store pid idx none authUser db)
    ∧ deletePoll store pid authUser verr db
        = deletePoll store2 pid authUser verr db
    ∧ (verr = none →
        (deletePoll store pid authUser verr db).1 ≠ some invalidTokenMsg) := by
  refine ⟨fun hnone => ?_, fun t htok hvf => ?_, ?_, fun t ht hvf => ?_,
    fun t ht hvt => ?_, rfl, fun hverr => ?_⟩
  · constructor <;> simp [createPoll, updatePoll, tokenCheckFails, hnone]
  · constructor <;> simp [createPoll, updatePoll, tokenCheckFails, htok, hvf]
  · rfl
  · simp [submitVote, ht, hvf]
  · have h1 : ¬((some t : Option String).getD "" ≠ ""
        ∧ ¬ validateCSRFToken hashToken store
            ((some t : Option String).getD "") = true) := by
      simp [hvt]
    have h2 : ¬((none : Option String).getD "" ≠ ""
        ∧ ¬ validateCSRFToken hashToken store
            ((none : Option String).getD "") = true) := by
      simp
    simp only [submitVote]
    rw [if_neg h1, if_neg h2]
  · subst hverr
    match authUser with
    | none => simp [deletePoll]; decide
    | some user =>
      simp only [deletePoll]
      by_cases hadm : user.role = some "admin"
      · simp [hadm]
      · simp only [hadm, if_false]
        match hf : db.polls.find? (fun p => p.id == pid) with
        | none => simp [hf]; decide
        | some poll =>
          by_cases howner : poll.user_id ≠ user.id
          · simp [hf, howner]; decide
          · simp [hf, howner]

theorem c6_token_enforcement_profile_witness :
    (createPoll demoHash demoStore ⟨none, some "Q", ["a", "b"]⟩ (some alice)
        "p2" demoDB = (some invalidTokenMsg, demoDB)
      ∧ updatePoll demoHash demoStore "p1" ⟨none, some "Q", ["a", "b"]⟩
        (some alice) demoDB = (some invalidTokenMsg, demoDB))
    ∧ (createPoll demoHash demoStore ⟨some "bad", some "Q", ["a", "b"]⟩
        (some alice) "p2" demoDB = (some invalidTokenMsg, demoDB)
      ∧ updatePoll demoHash demoStore "p1" ⟨some "bad", some "Q", ["a", "b"]⟩
        (some alice) demoDB = (some invalidTokenMsg, demoDB))
    ∧ submitVote demoHash demoStore "p1" 1 none (some alice) demoDB
        = submitVote demoHash none "p1" 1 none (some alice) demoDB
    ∧ submitVote demoHash demoStore "p1" 1 (some "bad") (some alice) demoDB
        = (some invalidTokenMsg, demoDB)
    ∧ submitVote demoHash demoStore "p1" 1 (some "tok") (some alice) demoDB
        = submitVote demoHash demoStore "p1" 1 none (some alice) demoDB
    ∧ deletePoll demoStore "p1" (some alice) none demoDB
        = deletePoll none "p1" (some alice) none demoDB
    ∧ (deletePoll demoStore "p1" (some alice) none demoDB).1
        ≠ some invalidTokenMsg := by
  have h1 := c6_token_enforcement_profile demoHash demoStore none
    ⟨none, some "Q", ["a", "b"]⟩ (some alice) "p2" "p1" demoDB 1 none
  have h2 := c6_token_enforcement_profile demoHash demoStore none
    ⟨some "bad", some "Q", ["a", "b"]⟩ (some alice) "p2" "p1" demoDB 1 none
  exact ⟨h1.1 rfl, h2.2.1 "bad" rfl (by decide), h1.2.2.1,
    h1.2.2.2.1 "bad" (by decide) (by decide),
    h1.2.2.2.2.1 "tok" (by decide) (by decide), h1.2.2.2.2.2.1,
    h1.2.2.2.2.2.2 rfl⟩

set_option maxRecDepth 4000 in
/-- C7 counterexample: a create-poll submission (valid token, authenticated
identity) whose first option is over-long and whose second option is blank
after trimming. The claimed fixed rule order places the empty-option rule
before the option-too-long rule, so it predicts the empty-option error
(`validatePollInputClaimOrder`, written from the spec, returns it); the
code returns the option-too-long error, because its per-option loop reaches
the over-long first option before the blank second one. -/
theorem c7_option_order_counterexample :
    createPoll demoHash demoStore fdLongThenBlank (some alice) "p2" demoDB
      = (some optionTooLongMsg, demoDB)
    ∧ validatePollInputClaimOrder fdLongThenBlank.question
        (fdLongThenBlank.options.filter (fun o => o != ""))
      = some emptyOptionMsg
    ∧ optionTooLongMsg ≠ emptyOptionMsg :=
  ⟨by decide, by decide, by decide⟩

/-- C7 (amended): for a create-poll or update-poll submission with a valid
token, the single error returned is the first produced by this order:
missing/blank question, question longer than 500, fewer than 2 options,
more than 10 options, then the options scanned left to right with each
option checked blank-after-trim before longer-than-200, then duplicate
options after trimming — the order `validatePollInput` implements; the last
conjunct restates the per-option scan as a first-match search, pinning the
left-to-right interleaving of the two per-option rules. -/
theorem c7_validation_error_order (hashToken : String → String)
    (store : Option String) (fd : PollFormData) (authUser : Option User)
    (newId pid : String) (db : DB) (t e : String)
    (htok : fd.csrfToken = some t) (ht : t ≠ "")
    (hval : validateCSRFToken hashToken store t = true)
    (hv : validatePollInput fd.question
      (fd.options.filter (fun o => o != "")) = some e) :
    createPoll hashToken store fd authUser newId db = (some e, db)
    ∧ updatePoll hashToken store pid fd authUser db = (some e, db)
    ∧ ∀ l, optionsLoopCheck l = l.findSome? (fun o =>
        if jsTrim o = "" then some emptyOptionMsg
        else if o.length > 200 then some optionTooLongMsg
        else none) := by
  refine ⟨?_, ?_, ?_⟩
  · simp [createPoll, tokenCheckFails, htok, ht, hval, hv]
  · simp [updatePoll, tokenCheckFails, htok, ht, hval, hv]
  · intro l
    induction l with
    | nil => rfl
    | cons o rest ih =>
      by_cases h1 : jsTrim o = ""
      · simp [optionsLoopCheck, List.findSome?_cons, h1]
      · by_cases h2 : o.length > 200
        · simp [optionsLoopCheck, List.findSome?_cons, h1, h2]
        · simp [optionsLoopCheck, List.findSome?_cons, h1, h2, ih]

set_option maxRecDepth 4000 in
theorem c7_validation_error_order_witness :
    createPoll demoHash demoStore fdOneOption (some alice) "p2" demoDB
      = (some tooFewOptionsMsg, demoDB)
    ∧ updatePoll demoHash demoStore "p1" fdOneOption (some alice) demoDB
      = (some tooFewOptionsMsg, demoDB)
    ∧ optionsLoopCheck [longOption, " "] = some optionTooLongMsg := by
  have h := c7_validation_error_order demoHash demoStore fdOneOption
    (some alice) "p2" "p1" demoDB "tok" tooFewOptionsMsg rfl (by decide)
    (by decide) (by decide)
  refine ⟨h.1, h.2.1, ?_⟩
  rw [h.2.2 [longOption, " "]]
  decide

/-- C8: in a `deletePoll` run that passes the authorization step (admin, or
owner of the found poll), the dependent vote rows are deleted before the
poll row: when the external vote-row deletion succeeds the result removes
both the poll's votes and the poll; when it fails with any message, that
message is returned and the database — the poll row included — is
untouched. -/
theorem c8_delete_votes_before_poll (store : Option String) (pid : String)
    (u : User) (p : Poll) (db : DB)
    (hperm : u.role = some "admin"
      ∨ (db.polls.find? (fun q => q.id == pid) = some p
          ∧ p.user_id = u.id)) :
    deletePoll store pid (some u) none db
      = (none, ⟨db.polls.filter (fun q => !(q.id == pid)),
          db.votes.filter (fun v => !(v.poll_id == pid))⟩)
    ∧ ∀ m, deletePoll store pid (some u) (some m) db = (some m, db) := by
  rcases hperm with hadm | hfo
  · constructor
    · simp [deletePoll, hadm]
    · intro m
      simp [deletePoll, hadm]
  · constructor
    · simp [deletePoll, hfo.1, hfo.2]
    · intro m
      simp [deletePoll, hfo.1, hfo.2]

theorem c8_delete_votes_before_poll_witness :
    deletePoll demoStore "p1" (some alice) none demoDB = (none, ⟨[], []⟩)
    ∧ deletePoll demoStore "p1" (some alice) (some "vote delete failed")
        demoDB = (some "vote delete failed", demoDB) := by
  have h := c8_delete_votes_before_poll demoStore "p1" alice demoPoll demoDB
    (Or.inr ⟨by decide, by decide⟩)
  exact ⟨h.1.trans (by decide), h.2 "vote delete failed"⟩

theorem optionsLoopCheck_emptyMsg (l : List String)
    (h : optionsLoopCheck l = some emptyOptionMsg) :
    ∃ o ∈ l, jsTrim o = "" := by
  induction l with
  | nil => simp [optionsLoopCheck] at h
  | cons o rest ih =>
    by_cases h1 : jsTrim o = ""
    · exact ⟨o, by simp, h1⟩
    · by_cases h2 : o.length > 200
      · rw [optionsLoopCheck, if_neg h1, if_pos h2] at h
        injection h with h
        exact absurd h (by decide)
      · rw [optionsLoopCheck, if_neg h1, if_neg h2] at h
        obtain ⟨o2, ho2, hh⟩ := ih h
        exact ⟨o2, List.mem_cons_of_mem o ho2, hh⟩

theorem validatePollInput_emptyMsg (question : Option String)
    (options : List String)
    (h : validatePollInput question options = some emptyOptionMsg) :
    ∃ o ∈ options, jsTrim o = "" := by
  match question with
  | none => simp [validatePollInput, invalidQuestionMsg, emptyOptionMsg] at h
  | some q =>
    simp only [validatePollInput] at h
    by_cases h1 : jsTrim q = ""
    · simp [h1, invalidQuestionMsg, emptyOptionMsg] at h
    by_cases h2 : q.length > 500
    · simp [h1, h2, questionTooLongMsg, emptyOptionMsg] at h
    by_cases h3 : options.length < 2
    · simp [h1, h2, h3, tooFewOptionsMsg, emptyOptionMsg] at h
    by_cases h4 : options.length > 10
    · simp [h1, h2, h3, h4, tooManyOptionsMsg, emptyOptionMsg] at h
    match hloop : optionsLoopCheck options with
    | some e =>
      simp [h1, h2, h3, h4, hloop] at h
      exact optionsLoopCheck_emptyMsg options (h ▸ hloop)
    | none =>
      by_cases h5 : (options.map jsTrim).dedup.length ≠ options.length
      · simp [h1, h2, h3, h4, hloop, h5, duplicateOptionsMsg,
          emptyOptionMsg] at h
      · simp [h1, h2, h3, h4, hloop, h5] at h

/-- C9: empty-string options are removed by the `.filter(Boolean)` step
before any validation, in both `createPoll` and `updatePoll`. A submission
whose options, besides empty strings, contain no whitespace-only option
never produces the empty-option error from either handler (only a
whitespace-only non-empty option can); and a submission whose options
reduce, after dropping empty strings, to exactly two valid distinct options
passes the 2-10 count bounds — however many empty strings were submitted
around them — and persists only those two options, trimmed: `createPoll`
inserts them, and `updatePoll` (on a found poll the identity may edit)
stores them on every matching poll row. -/
theorem c9_empty_options_filtered_before_validation
    (hashToken : String → String) (store : Option String) (fd : PollFormData)
    (u : User) (newId pid : String) (p : Poll) (db : DB) (t q o1 o2 : String)
    (htok : fd.csrfToken = some t) (ht : t ≠ "")
    (hval : validateCSRFToken hashToken store t = true) :
    ((∀ o ∈ fd.options, o ≠ "" → jsTrim o ≠ "") →
      (createPoll hashToken store fd (some u) newId db).1
        ≠ some emptyOptionMsg
      ∧ (updatePoll hashToken store pid fd (some u) db).1
        ≠ some emptyOptionMsg)
    ∧ (fd.question = some q → jsTrim q ≠ "" → q.length ≤ 500 →
      fd.options.filter (fun o => o != "") = [o1, o2] →
      jsTrim o1 ≠ "" → o1.length ≤ 200 → jsTrim o2 ≠ "" → o2.length ≤ 200 →
      jsTrim o1 ≠ jsTrim o2 →
      createPoll hashToken store fd (some u) newId db
        = (none, { db with polls := db.polls ++
            [⟨newId, u.id, jsTrim q, [jsTrim o1, jsTrim o2]⟩] })
      ∧ (db.polls.find? (fun r => r.id == pid) = some p →
        (u.role = some "admin" ∨ p.user_id = u.id) →
        updatePoll hashToken store pid fd (some u) db
          = (none, { db with polls := db.polls.map (fun r =>
              if r.id == pid then
                { r with question := jsTrim q,
                         options := [jsTrim o1, jsTrim o2] }
              else r) }))) := by
  constructor
  · intro hno
    constructor
    · intro h
      simp only [createPoll] at h
      split at h
      · simp [invalidTokenMsg, emptyOptionMsg] at h
      · split at h
        next e heq =>
          simp only at h
          injection h with h
          subst h
          obtain ⟨o, ho, htr⟩ := validatePollInput_emptyMsg _ _ heq
          rw [List.mem_filter] at ho
          exact absurd htr (hno o ho.1 (by simpa using ho.2))
        next heq =>
          simp at h
    · intro h
      simp only [updatePoll] at h
      split at h
      · simp [invalidTokenMsg, emptyOptionMsg] at h
      · split at h
        next e heq =>
          simp only at h
          injection h with h
          subst h
          obtain ⟨o, ho, htr⟩ := validatePollInput_emptyMsg _ _ heq
          rw [List.mem_filter] at ho
          exact absurd htr (hno o ho.1 (by simpa using ho.2))
        next heq =>
          split at h
          next hfind => simp [pollNotFoundMsg, emptyOptionMsg] at h
          next poll hfind =>
            split at h
            · simp [noUpdatePermissionMsg, emptyOptionMsg] at h
            · simp at h
  · intro hq hq1 hq2 hfilter h1 h2 h3 h4 hne
    have hv : validatePollInput (some q) [o1, o2] = none := by
      refine validatePollInput_eq_none q [o1, o2] hq1 hq2 (by simp) (by simp)
        ?_ ?_
      · intro o ho
        simp only [List.mem_cons, List.not_mem_nil, or_false] at ho
        rcases ho with rfl | rfl
        · exact ⟨h1, h2⟩
        · exact ⟨h3, h4⟩
      · simp [hne]
    constructor
    · simp [createPoll, tokenCheckFails, htok, ht, hval, hv, hfilter, hq]
    · intro hfind hperm
      rcases hperm with hadm | hown
      · simp [updatePoll, tokenCheckFails, htok, ht, hval, hv, hfilter, hq,
          hfind, hadm]
      · simp [updatePoll, tokenCheckFails, htok, ht, hval, hv, hfilter, hq,
          hfind, hown]

set_option maxRecDepth 4000 in
theorem c9_empty_options_filtered_before_validation_witness :
    (createPoll demoHash demoStore fdWithEmpties (some alice) "p2" demoDB).1
      ≠ some emptyOptionMsg
    ∧ (updatePoll demoHash demoStore "p1" fdWithEmpties (some alice)
        demoDB).1 ≠ some emptyOptionMsg
    ∧ createPoll demoHash demoStore fdWithEmpties (some alice) "p2" demoDB
      = (none, { demoDB with polls := demoDB.polls ++
          [⟨"p2", "alice", "Q", ["a", "b"]⟩] })
    ∧ updatePoll demoHash demoStore "p1" fdWithEmpties (some alice) demoDB
      = (none, { demoDB with polls := [⟨"p1", "alice", "Q", ["a", "b"]⟩] }) := by
  have h := c9_empty_options_filtered_before_validation demoHash demoStore
    fdWithEmpties alice "p2" "p1" demoPoll demoDB "tok" "Q" "a" "b" rfl
    (by decide) (by decide)
  have hg := h.2 rfl (by decide) (by decide) (by decide) (by decide)
    (by decide) (by decide) (by decide) (by decide)
  refine ⟨(h.1 (by decide)).1, (h.1 (by decide)).2, hg.1.trans (by decide),
    ?_⟩
  exact (hg.2 (by decide) (Or.inr (by decide))).trans (by decide)

/-- C10: the length limits are checked on the untrimmed inputs while the
stored values are the trimmed ones. With a valid token: a question whose raw
length exceeds 500 (and is not blank after trimming) draws the
question-too-long error from both handlers whatever its trimmed length; an
option whose raw length exceeds 200 forces an error with no mutation from
both handlers whatever its trimmed length; and whenever either handler
succeeds, the persisted question and options are exactly the trimmed forms
of the submitted ones. -/
theorem c10_raw_length_checks_trimmed_storage (hashToken : String → String)
    (store : Option String) (fd : PollFormData) (u : User)
    (newId pid : String) (db : DB) (t q : String)
    (htok : fd.csrfToken = some t) (ht : t ≠ "")
    (hval : validateCSRFToken hashToken store t = true) :
    (fd.question = some q → jsTrim q ≠ "" → q.length > 500 →
      createPoll hashToken store fd (some u) newId db
        = (some questionTooLongMsg, db)
      ∧ updatePoll hashToken store pid fd (some u) db
        = (some questionTooLongMsg, db))
    ∧ (∀ o ∈ fd.options.filter (fun x => x != ""), o.length > 200 →
      (createPoll hashToken store fd (some u) newId db).1 ≠ none
      ∧ (createPoll hashToken store fd (some u) newId db).2 = db
      ∧ (updatePoll hashToken store pid fd (some u) db).1 ≠ none
      ∧ (updatePoll hashToken store pid fd (some u) db).2 = db)
    ∧ (∀ db2, fd.question = some q →
      createPoll hashToken store fd (some u) newId db = (none, db2) →
      db2 = { db with polls := db.polls ++ [⟨newId, u.id, jsTrim q,
        (fd.options.filter (fun x => x != "")).map jsTrim⟩] })
    ∧ (∀ db2, fd.question = some q →
      updatePoll hashToken store pid fd (some u) db = (none, db2) →
      db2.polls = db.polls.map (fun p =>
        if p.id == pid then
          { p with question := jsTrim q,
                   options := (fd.options.filter (fun x => x != "")).map
                     jsTrim }
        else p)) := by
  refine ⟨fun hq hq1 hlen => ?_, fun o ho hlen => ?_,
    fun db2 hq h => ?_, fun db2 hq h => ?_⟩
  · constructor
    · simp [createPoll, tokenCheckFails, htok, ht, hval, validatePollInput,
        hq, hq1, hlen]
    · simp [updatePoll, tokenCheckFails, htok, ht, hval, validatePollInput,
        hq, hq1, hlen]
  · match hv : validatePollInput fd.question
        (fd.options.filter (fun x => x != "")) with
    | some e =>
      refine ⟨?_, ?_, ?_, ?_⟩ <;>
        simp [createPoll, updatePoll, tokenCheckFails, htok, ht, hval, hv]
    | none =>
      obtain ⟨q2, -, -, -, -, -, hall, -⟩ := validatePollInput_none_facts _ _ hv
      have := (hall o ho).2
      omega
  · simp only [createPoll] at h
    split at h
    · simp at h
    · split at h
      next e heq => simp at h
      next heq =>
        simp only [Prod.mk.injEq, true_and] at h
        rw [hq] at h
        simpa using h.symm
  · simp only [updatePoll] at h
    split at h
    · simp at h
    · split at h
      next e heq => simp at h
      next heq =>
        split at h
        next hfind => simp at h
        next poll hfind =>
          split at h
          · simp at h
          · simp only [Prod.mk.injEq, true_and] at h
            rw [hq] at h
            have h2 := congrArg DB.polls h.symm
            simpa using h2

set_option maxRecDepth 4000 in
theorem c10_raw_length_checks_trimmed_storage_witness :
    (createPoll demoHash demoStore fdPaddedQuestion (some alice) "p2" demoDB
      = (some questionTooLongMsg, demoDB)
    ∧ updatePoll demoHash demoStore "p1" fdPaddedQuestion (some alice) demoDB
      = (some questionTooLongMsg, demoDB))
    ∧ ((createPoll demoHash demoStore fdPaddedOption (some alice) "p2"
        demoDB).1 ≠ none
      ∧ (createPoll demoHash demoStore fdPaddedOption (some alice) "p2"
        demoDB).2 = demoDB)
    ∧ ({ demoDB with polls := demoDB.polls ++
        [⟨"p2", "alice", jsTrim " Q? ", [jsTrim " a ", jsTrim "b"]⟩] } : DB)
      = { demoDB with polls := demoDB.polls ++
        [⟨"p2", "alice", "Q?", ["a", "b"]⟩] } := by
  have hpq := c10_raw_length_checks_trimmed_storage demoHash demoStore
    fdPaddedQuestion alice "p2" "p1" demoDB "tok" paddedQuestion rfl
    (by decide) (by decide)
  have hpo := c10_raw_length_checks_trimmed_storage demoHash demoStore
    fdPaddedOption alice "p2" "p1" demoDB "tok" "Q" rfl (by decide)
    (by decide)
  have hst := c10_raw_length_checks_trimmed_storage demoHash demoStore
    goodFD alice "p2" "p1" demoDB "tok" " Q? " rfl (by decide) (by decide)
  refine ⟨hpq.1 rfl (by decide) (by decide), ?_, ?_⟩
  · have hp := hpo.2.1 paddedOption (by decide) (by decide)
    exact ⟨hp.1, hp.2.1⟩
  · have hs := hst.2.2.1
      { demoDB with polls := demoDB.polls ++
        [⟨"p2", "alice", jsTrim " Q? ", [jsTrim " a ", jsTrim "b"]⟩] }
      rfl (by decide)
    exact hs.symm.trans (by decide)

end AlxPolly
